import Mathlib

/-!
Shallow embedding of the backend sidecar supervisor from
`src-tauri/src/lib.rs` of the agenterm desktop shell.

The Rust module manages at most one backend child process behind a
`OnceLock<Mutex<Option<Child>>>`.  Its interaction with the operating
system (environment variables, the TCP liveness probe, the filesystem,
process spawning and `try_wait`) is modelled by an explicit environment
record `Env` whose fields are the results the OS would return; the
guarded handle is modelled by an explicit `SupervisorState` that every
operation takes and returns.  Rust `Result<_, String>` errors are
modelled by the inductive `SpawnError`, one constructor per `map_err` /
`ok_or_else` site in the source, carrying exactly what the corresponding
format string interpolates; `SpawnError.render` produces the literal
message text of the source.
-/

/-- `BACKEND_HOST` constant from lib.rs. -/
def BACKEND_HOST : String := "127.0.0.1"

/-- `BACKEND_PORT` constant from lib.rs (a `u16`). -/
def BACKEND_PORT : Nat := 8765

/-- `BACKEND_TOKEN` constant from lib.rs. -/
def BACKEND_TOKEN : String := "agenterm-desktop-local"

/-- `BACKEND_DB_PATH` constant from lib.rs. -/
def BACKEND_DB_PATH : String := ".cache/desktop/agenterm.db"

/-- `BACKEND_AGENTS_DIR` constant from lib.rs. -/
def BACKEND_AGENTS_DIR : String := "configs/agents"

/-- `BACKEND_PLAYBOOKS_DIR` constant from lib.rs. -/
def BACKEND_PLAYBOOKS_DIR : String := "configs/playbooks"

deriving instance DecidableEq for Except

/-- A live child process handle (`std::process::Child`), identified by pid. -/
structure Child where
  pid : Nat
deriving DecidableEq, Repr

/-- An exit status reported by `Child::try_wait` (`std::process::ExitStatus`). -/
structure ExitStatus where
  code : Int
deriving DecidableEq, Repr

/-- The content of the `Mutex<Option<Child>>`: the optional handle plus the
mutex poison flag (a Rust mutex is poisoned when a holder panicked). -/
structure MutexCell where
  poisoned : Bool
  child : Option Child
deriving DecidableEq, Repr

/-- The process-wide supervisor state: the
`static BACKEND_CHILD : OnceLock<Mutex<Option<Child>>>`.
`cell = none` means the `OnceLock` has never been initialized. -/
structure SupervisorState where
  cell : Option MutexCell
deriving DecidableEq, Repr

/-- Where a child output stream is directed (`Stdio::from(file)` vs
`Stdio::null()`). -/
inductive Sink where
  | file (path : String)
  | nullSink
deriving DecidableEq, Repr

/-- The fully built `std::process::Command`: program, arguments, working
directory and the two output stream targets. -/
structure CommandSpec where
  program : String
  args : List String
  currentDir : String
  stdoutSink : Sink
  stderrSink : Sink
deriving DecidableEq, Repr

/-- One constructor per error construction site in `spawn_backend_sidecar`,
carrying the data interpolated into the corresponding format string. -/
inductive SpawnError where
  | createCacheDirFailed (dir msg : String)
  | lockPoisoned
  | resolveCurrentExeFailed (msg : String)
  | resolveExeDirFailed
  | backendBinaryNotFound
  | openLogFailed (path msg : String)
  | cloneLogFailed (path msg : String)
  | spawnFailed (msg : String)
  | exitedEarly (status : ExitStatus)
deriving DecidableEq, Repr

/-- The literal `String` error message the Rust code produces for each
`SpawnError` (exit statuses are rendered by their code). -/
def SpawnError.render : SpawnError → String
  | .createCacheDirFailed dir msg => "create desktop cache directory " ++ dir ++ ": " ++ msg
  | .lockPoisoned => "backend sidecar lock poisoned"
  | .resolveCurrentExeFailed msg => "resolve current exe: " ++ msg
  | .resolveExeDirFailed => "resolve executable directory"
  | .backendBinaryNotFound => "desktop backend binary not found near app executable"
  | .openLogFailed path msg => "open sidecar log " ++ path ++ ": " ++ msg
  | .cloneLogFailed path msg => "clone sidecar log handle " ++ path ++ ": " ++ msg
  | .spawnFailed msg => "spawn backend sidecar failed: " ++ msg
  | .exitedEarly status => "backend sidecar exited early with status " ++ toString status.code

/-- The environment oracle for one `spawn_backend_sidecar` call: the values
the operating system returns for each external interaction the function
performs, in source order. -/
structure Env where
  /-- `std::env::var("AGENTERM_NO_SIDECAR")`, `none` for absent/non-unicode. -/
  noSidecarVar : Option String
  /-- Result of the `TcpStream::connect_timeout` liveness probe. -/
  backendAlive : Bool
  /-- The compile-time `CARGO_MANIFEST_DIR` used by `project_root`. -/
  manifestDir : String
  /-- Result of `fs::create_dir_all(&cache_dir)`; error carries the io message. -/
  createDirResult : Except String Unit
  /-- The compile-time `cfg!(debug_assertions)` flag. -/
  debugAssertions : Bool
  /-- Result of `std::env::current_exe()`. -/
  currentExe : Except String String
  /-- `exe.parent()` of the current executable path. -/
  exeParentDir : Option String
  /-- `Path::exists` for production candidate binaries. -/
  existsOnDisk : String → Bool
  /-- Result of opening the sidecar log file in create/append mode. -/
  openLogResult : Except String Unit
  /-- Result of `log_file.try_clone()`. -/
  cloneLogResult : Except String Unit
  /-- Result of `cmd.spawn()`. -/
  spawnResult : Except String Child
  /-- Result of `child.try_wait()` after the 600ms settle sleep:
  `ok (some s)` = already exited with status `s`, `ok none` = still
  running, `error` = the status query itself failed. -/
  tryWaitResult : Except String (Option ExitStatus)

/-- `fn sidecar_disabled`: the `AGENTERM_NO_SIDECAR` opt-out check.
`v.eq_ignore_ascii_case("true")` is modelled by `eq_ignore_ascii_case`. -/
def asciiToLower (c : Char) : Char :=
  if 'A' ≤ c ∧ c ≤ 'Z' then Char.ofNat (c.toNat + 32) else c

/-- Rust `str::eq_ignore_ascii_case`: equality after ASCII lowercasing. -/
def eq_ignore_ascii_case (a b : String) : Bool :=
  a.data.map asciiToLower == b.data.map asciiToLower

/-- `fn sidecar_disabled() -> bool` from lib.rs:
`matches!(std::env::var("AGENTERM_NO_SIDECAR"), Ok(v) if v == "1" || v.eq_ignore_ascii_case("true"))`. -/
def sidecar_disabled (var : Option String) : Bool :=
  match var with
  | some v => v == "1" || eq_ignore_ascii_case v "true"
  | none => false

/-- `fn project_root`: `PathBuf::from(env!("CARGO_MANIFEST_DIR")).join("..")`. -/
def project_root (manifestDir : String) : String :=
  manifestDir ++ "/.."

/-- `root.join(".cache").join("desktop")` from `spawn_backend_sidecar`. -/
def cache_dir_of (manifestDir : String) : String :=
  (project_root manifestDir ++ "/.cache") ++ "/desktop"

/-- `BACKEND_CHILD.get_or_init(|| Mutex::new(None))`: the existing cell, or a
fresh unpoisoned empty one when the `OnceLock` was never initialized. -/
def get_or_init_cell (st : SupervisorState) : MutexCell :=
  match st.cell with
  | some c => c
  | none => { poisoned := false, child := none }

/-- The shell line built by the dev-mode `format!` in `spawn_backend_sidecar`. -/
def devLaunchString : String :=
  "source ~/.zshrc >/dev/null 2>&1; exec go run ./cmd/agenterm --port "
    ++ toString BACKEND_PORT ++ " --token " ++ BACKEND_TOKEN ++ " --db-path "
    ++ BACKEND_DB_PATH ++ " --agents-dir " ++ BACKEND_AGENTS_DIR
    ++ " --playbooks-dir " ++ BACKEND_PLAYBOOKS_DIR ++ " --dir ."

/-- The ordered candidate executables tried in production mode:
`[exe_dir.join("agenterm"), exe_dir.join("agenterm-server")]`. -/
def production_candidates (exeDir : String) : List String :=
  [exeDir ++ "/agenterm", exeDir ++ "/agenterm-server"]

/-- The argument list appended in production mode (`if !cfg!(debug_assertions)`). -/
def production_args : List String :=
  ["--port", toString BACKEND_PORT, "--token", BACKEND_TOKEN,
   "--db-path", BACKEND_DB_PATH, "--agents-dir", BACKEND_AGENTS_DIR,
   "--playbooks-dir", BACKEND_PLAYBOOKS_DIR, "--dir", "."]

/-- Lines 63-102 of lib.rs: the program and argument list of the command.
Development mode wraps `devLaunchString` in `zsh -lc`; production mode
resolves the current executable, its directory, and the first candidate
binary that exists on disk, then passes `production_args`. -/
def resolve_program (env : Env) : Except SpawnError (String × List String) :=
  if env.debugAssertions then
    Except.ok ("zsh", ["-lc", devLaunchString])
  else
    match env.currentExe with
    | .error e => .error (.resolveCurrentExeFailed e)
    | .ok _ =>
      match env.exeParentDir with
      | none => .error .resolveExeDirFailed
      | some exeDir =>
        match (production_candidates exeDir).find? env.existsOnDisk with
        | none => .error .backendBinaryNotFound
        | some binary => .ok (binary, production_args)

/-- Lines 104-118 of lib.rs: the stdout/stderr targets. Development mode
opens (create/append) the log file and clones its handle, either failure
aborting; production mode uses `Stdio::null()` for both. -/
def resolve_sinks (env : Env) (cacheDir : String) : Except SpawnError (Sink × Sink) :=
  if env.debugAssertions then
    match env.openLogResult with
    | .error e => .error (.openLogFailed (cacheDir ++ "/backend-sidecar.log") e)
    | .ok _ =>
      match env.cloneLogResult with
      | .error e => .error (.cloneLogFailed (cacheDir ++ "/backend-sidecar.log") e)
      | .ok _ => .ok (.file (cacheDir ++ "/backend-sidecar.log"),
                      .file (cacheDir ++ "/backend-sidecar.log"))
  else
    .ok (.nullSink, .nullSink)

/-- The observable outcome of one `spawn_backend_sidecar` call: the
`Result<bool, String>` return value, the supervisor state afterwards,
whether `cmd.spawn()` created a process, and the command it was invoked
on (when reached). -/
structure SpawnOutcome where
  ret : Except SpawnError Bool
  state : SupervisorState
  launched : Bool
  spawnedCmd : Option CommandSpec
deriving DecidableEq, Repr

/-- `fn spawn_backend_sidecar() -> Result<bool, String>` from lib.rs,
step for step: opt-out / liveness short-circuit, cache directory creation,
`get_or_init` + lock (poison check), duplicate-handle check, command and
sink construction, `cmd.spawn()`, the 600ms settle then
`if let Ok(Some(status)) = child.try_wait()` early-exit check, and finally
storing the handle. -/
def spawn_backend_sidecar (env : Env) (st : SupervisorState) : SpawnOutcome :=
  if sidecar_disabled env.noSidecarVar || env.backendAlive then
    { ret := .ok false, state := st, launched := false, spawnedCmd := none }
  else
    match env.createDirResult with
    | .error e =>
      { ret := .error (.createCacheDirFailed (cache_dir_of env.manifestDir) e),
        state := st, launched := false, spawnedCmd := none }
    | .ok _ =>
      if (get_or_init_cell st).poisoned then
        { ret := .error .lockPoisoned,
          state := { cell := some (get_or_init_cell st) },
          launched := false, spawnedCmd := none }
      else if (get_or_init_cell st).child.isSome then
        { ret := .ok false,
          state := { cell := some (get_or_init_cell st) },
          launched := false, spawnedCmd := none }
      else
        match resolve_program env with
        | .error e =>
          { ret := .error e, state := { cell := some (get_or_init_cell st) },
            launched := false, spawnedCmd := none }
        | .ok pa =>
          match resolve_sinks env (cache_dir_of env.manifestDir) with
          | .error e =>
            { ret := .error e, state := { cell := some (get_or_init_cell st) },
              launched := false, spawnedCmd := none }
          | .ok sinks =>
            match env.spawnResult with
            | .error e =>
              { ret := .error (.spawnFailed e),
                state := { cell := some (get_or_init_cell st) },
                launched := false,
                spawnedCmd := some { program := pa.1, args := pa.2,
                                     currentDir := project_root env.manifestDir,
                                     stdoutSink := sinks.1, stderrSink := sinks.2 } }
            | .ok child =>
              match env.tryWaitResult with
              | .ok (some status) =>
                { ret := .error (.exitedEarly status),
                  state := { cell := some (get_or_init_cell st) },
                  launched := true,
                  spawnedCmd := some { program := pa.1, args := pa.2,
                                       currentDir := project_root env.manifestDir,
                                       stdoutSink := sinks.1, stderrSink := sinks.2 } }
              | _ =>
                { ret := .ok true,
                  state := { cell := some { poisoned := false, child := some child } },
                  launched := true,
                  spawnedCmd := some { program := pa.1, args := pa.2,
                                       currentDir := project_root env.manifestDir,
                                       stdoutSink := sinks.1, stderrSink := sinks.2 } }

/-- The observable outcome of `stop_backend_sidecar`: the state afterwards
and the child (if any) on which `kill` and `wait` were invoked. -/
structure StopOutcome where
  state : SupervisorState
  terminated : Option Child
deriving DecidableEq, Repr

/-- `fn stop_backend_sidecar()` from lib.rs: if the `OnceLock` was
initialized and the lock is acquirable (not poisoned), `take` the handle
and kill/wait it; in every other case do nothing.  The function returns
no error in the source (`let _ = ...`); correspondingly it is total here. -/
def stop_backend_sidecar (st : SupervisorState) : StopOutcome :=
  match st.cell with
  | none => { state := st, terminated := none }
  | some c =>
    if c.poisoned then { state := st, terminated := none }
    else
      match c.child with
      | none => { state := { cell := some { poisoned := false, child := none } },
                  terminated := none }
      | some child => { state := { cell := some { poisoned := false, child := none } },
                        terminated := some child }

/-- The `DesktopRuntimeInfo` struct returned by the `desktop_runtime_info`
command. -/
structure DesktopRuntimeInfo where
  platform : String
  app : String
  backend_url : String
  backend_token : String
  sidecar_managed : Bool
deriving DecidableEq, Repr

/-- `fn desktop_runtime_info() -> DesktopRuntimeInfo` from lib.rs.
`sidecar_managed` is
`BACKEND_CHILD.get().and_then(|lock| lock.lock().ok().map(|g| g.is_some())).unwrap_or(false)`:
`false` for an uninitialized `OnceLock` or a poisoned lock. `osName` is the
compile-time `std::env::consts::OS`. A pure read: it takes the state and
returns only the info record. -/
def desktop_runtime_info (osName : String) (st : SupervisorState) : DesktopRuntimeInfo :=
  { platform := osName
    app := "agenTerm"
    backend_url := "http://" ++ BACKEND_HOST ++ ":" ++ toString BACKEND_PORT
    backend_token := BACKEND_TOKEN
    sidecar_managed :=
      match st.cell with
      | none => false
      | some c => if c.poisoned then false else c.child.isSome }

/-- `n` sequential calls of `spawn_backend_sidecar` in one process run
(fixed environment oracle): final state, number of processes actually
launched, and the list of per-call return values. -/
def run_spawns (env : Env) : Nat → SupervisorState → SupervisorState × Nat × List (Except SpawnError Bool)
  | 0, st => (st, 0, [])
  | n + 1, st =>
    ((run_spawns env n (spawn_backend_sidecar env st).state).1,
     (if (spawn_backend_sidecar env st).launched then 1 else 0) +
       (run_spawns env n (spawn_backend_sidecar env st).state).2.1,
     (spawn_backend_sidecar env st).ret ::
       (run_spawns env n (spawn_backend_sidecar env st).state).2.2)

/-- A development-mode environment in which every external interaction
succeeds and the child keeps running through the settle window. -/
def devEnv : Env :=
  { noSidecarVar := none
    backendAlive := false
    manifestDir := "/repo/src-tauri"
    createDirResult := .ok ()
    debugAssertions := true
    currentExe := .ok "/usr/bin/agenterm-desktop"
    exeParentDir := some "/usr/bin"
    existsOnDisk := fun _ => false
    openLogResult := .ok ()
    cloneLogResult := .ok ()
    spawnResult := .ok { pid := 1 }
    tryWaitResult := .ok none }

/-- A production-mode environment where only the second candidate binary
exists next to the application executable. -/
def prodEnv : Env :=
  { devEnv with
    debugAssertions := false
    existsOnDisk := fun p => p == "/usr/bin/agenterm-server" }

/-- A development-mode environment whose sidecar log file cannot be opened. -/
def devEnvLogFail : Env :=
  { devEnv with openLogResult := .error "no space" }

/-! ## Helper lemmas -/

theorem resolve_sinks_production (env : Env) (cacheDir : String)
    (hdbg : env.debugAssertions = false) :
    resolve_sinks env cacheDir = Except.ok (Sink.nullSink, Sink.nullSink) := by
  simp [resolve_sinks, hdbg]

theorem spawn_ok_true_shape (env : Env) (st : SupervisorState)
    (h : (spawn_backend_sidecar env st).ret = Except.ok true) :
    env.createDirResult = Except.ok () ∧
    (spawn_backend_sidecar env st).launched = true ∧
    ∃ ch, (spawn_backend_sidecar env st).state =
      { cell := some { poisoned := false, child := some ch } } := by
  cases hb : (sidecar_disabled env.noSidecarVar || env.backendAlive) with
  | true => simp [spawn_backend_sidecar, hb] at h
  | false =>
    cases hc : env.createDirResult with
    | error e => simp [spawn_backend_sidecar, hb, hc] at h
    | ok u =>
      cases u
      cases hp : (get_or_init_cell st).poisoned with
      | true => simp [spawn_backend_sidecar, hb, hc, hp] at h
      | false =>
        cases hch : (get_or_init_cell st).child with
        | some c0 => simp [spawn_backend_sidecar, hb, hc, hp, hch] at h
        | none =>
          cases hrp : resolve_program env with
          | error e => simp [spawn_backend_sidecar, hb, hc, hp, hch, hrp] at h
          | ok pa =>
            cases hrs : resolve_sinks env (cache_dir_of env.manifestDir) with
            | error e => simp [spawn_backend_sidecar, hb, hc, hp, hch, hrp, hrs] at h
            | ok sinks =>
              cases hsp : env.spawnResult with
              | error e => simp [spawn_backend_sidecar, hb, hc, hp, hch, hrp, hrs, hsp] at h
              | ok ch =>
                cases htw : env.tryWaitResult with
                | error e =>
                  refine ⟨rfl, ?_, ⟨ch, ?_⟩⟩ <;>
                    simp [spawn_backend_sidecar, hb, hc, hp, hch, hrp, hrs, hsp, htw]
                | ok o =>
                  cases o with
                  | some s => simp [spawn_backend_sidecar, hb, hc, hp, hch, hrp, hrs, hsp, htw] at h
                  | none =>
                    refine ⟨rfl, ?_, ⟨ch, ?_⟩⟩ <;>
                      simp [spawn_backend_sidecar, hb, hc, hp, hch, hrp, hrs, hsp, htw]

/-! ## Claim theorems -/

/-- Claim C2: if `AGENTERM_NO_SIDECAR` is "1" or "true" in any ASCII letter
case, or the liveness probe reports the backend reachable, spawn launches
nothing, changes nothing, and returns `Ok(false)`; the variable being
absent, or holding any other value, leaves sidecar management enabled. -/
theorem optout_and_reachable_short_circuit :
    (∀ env st, (sidecar_disabled env.noSidecarVar = true ∨ env.backendAlive = true) →
       spawn_backend_sidecar env st =
         { ret := .ok false, state := st, launched := false, spawnedCmd := none }) ∧
    sidecar_disabled (some "1") = true ∧
    (∀ v, eq_ignore_ascii_case v "true" = true → sidecar_disabled (some v) = true) ∧
    sidecar_disabled (some "TRUE") = true ∧
    sidecar_disabled (some "TrUe") = true ∧
    sidecar_disabled none = false ∧
    (∀ v, v ≠ "1" → eq_ignore_ascii_case v "true" = false →
       sidecar_disabled (some v) = false) := by
  refine ⟨?_, by decide, ?_, by decide, by decide, by decide, ?_⟩
  · intro env st h
    rcases h with h | h <;> simp [spawn_backend_sidecar, h]
  · intro v hv
    simp [sidecar_disabled, hv]
  · intro v h1 h2
    simp [sidecar_disabled, h1, h2]

/-- Witness for C2 at concrete inputs: a reachable backend short-circuits a
spawn, "TRUE" disables the sidecar, "0" does not. -/
theorem optout_and_reachable_short_circuit_witness :
    spawn_backend_sidecar { devEnv with backendAlive := true } { cell := none } =
      { ret := .ok false, state := { cell := none }, launched := false, spawnedCmd := none } ∧
    sidecar_disabled (some "TRUE") = true ∧
    sidecar_disabled (some "0") = false :=
  ⟨optout_and_reachable_short_circuit.1 { devEnv with backendAlive := true }
      { cell := none } (Or.inr rfl),
   optout_and_reachable_short_circuit.2.2.1 "TRUE" (by decide),
   optout_and_reachable_short_circuit.2.2.2.2.2.2 "0" (by decide) (by decide)⟩

/-- Claim C7: with the mutex protecting the handle poisoned by a prior
failure, a spawn call that reaches the guard fails with the
`GuardUnavailable`-class error (`lockPoisoned`, rendered as
"backend sidecar lock poisoned"), launches nothing and leaves the state
untouched. -/
theorem poisoned_guard_spawn_fails (env : Env) (st : SupervisorState) (c : MutexCell)
    (hd : sidecar_disabled env.noSidecarVar = false)
    (ha : env.backendAlive = false)
    (hc : env.createDirResult = Except.ok ())
    (hcell : st.cell = some c) (hp : c.poisoned = true) :
    spawn_backend_sidecar env st =
      { ret := .error .lockPoisoned, state := st, launched := false, spawnedCmd := none } := by
  rcases st with ⟨stc⟩
  simp only [SupervisorState.mk.injEq] at hcell  -- actually hcell : stc = some c
  subst hcell
  simp [spawn_backend_sidecar, hd, ha, hc, get_or_init_cell, hp]

/-- Witness for C7: a concrete poisoned state makes spawn fail with
`lockPoisoned` and leaves the handle alone. -/
theorem poisoned_guard_spawn_fails_witness :
    spawn_backend_sidecar devEnv { cell := some { poisoned := true, child := none } } =
      { ret := .error .lockPoisoned,
        state := { cell := some { poisoned := true, child := none } },
        launched := false, spawnedCmd := none } :=
  poisoned_guard_spawn_fails devEnv { cell := some { poisoned := true, child := none } }
    { poisoned := true, child := none } rfl rfl rfl rfl rfl

/-- Claim C3: when a spawn reaches the launch step and the post-settle
`try_wait` probe reports the child already exited with some status, spawn
returns the `SidecarExitedEarly`-class error carrying that status, stores
no handle, and a subsequent `desktop_runtime_info` snapshot reports
`sidecar_managed = false`. -/
theorem early_exit_detected_no_handle (env : Env) (st : SupervisorState)
    (status : ExitStatus) (ch : Child) (pa : String × List String) (sinks : Sink × Sink)
    (hd : sidecar_disabled env.noSidecarVar = false)
    (ha : env.backendAlive = false)
    (hc : env.createDirResult = Except.ok ())
    (hcell : get_or_init_cell st = { poisoned := false, child := none })
    (hrp : resolve_program env = Except.ok pa)
    (hrs : resolve_sinks env (cache_dir_of env.manifestDir) = Except.ok sinks)
    (hsp : env.spawnResult = Except.ok ch)
    (htw : env.tryWaitResult = Except.ok (some status)) :
    (spawn_backend_sidecar env st).ret = Except.error (SpawnError.exitedEarly status) ∧
    (spawn_backend_sidecar env st).state =
      { cell := some { poisoned := false, child := none } } ∧
    ∀ osName,
      (desktop_runtime_info osName (spawn_backend_sidecar env st).state).sidecar_managed
        = false := by
  have hsp' : spawn_backend_sidecar env st =
      { ret := Except.error (SpawnError.exitedEarly status),
        state := { cell := some { poisoned := false, child := none } },
        launched := true,
        spawnedCmd := some { program := pa.1, args := pa.2,
                             currentDir := project_root env.manifestDir,
                             stdoutSink := sinks.1, stderrSink := sinks.2 } } := by
    simp [spawn_backend_sidecar, hd, ha, hc, hcell, hrp, hrs, hsp, htw]
  refine ⟨by rw [hsp'], by rw [hsp'], ?_⟩
  intro osName
  rw [hsp']
  simp [desktop_runtime_info]

/-- Witness for C3: in a concrete dev-mode run whose child exits with code 3
during the settle window, spawn fails with `exitedEarly` and the snapshot
shows no managed sidecar. -/
theorem early_exit_detected_no_handle_witness :
    (spawn_backend_sidecar { devEnv with tryWaitResult := Except.ok (some { code := 3 }) }
        { cell := none }).ret =
      Except.error (SpawnError.exitedEarly { code := 3 }) ∧
    (spawn_backend_sidecar { devEnv with tryWaitResult := Except.ok (some { code := 3 }) }
        { cell := none }).state =
      { cell := some { poisoned := false, child := none } } ∧
    (desktop_runtime_info "linux"
      (spawn_backend_sidecar { devEnv with tryWaitResult := Except.ok (some { code := 3 }) }
        { cell := none }).state).sidecar_managed = false := by
  have h := early_exit_detected_no_handle
    { devEnv with tryWaitResult := Except.ok (some { code := 3 }) } { cell := none }
    { code := 3 } { pid := 1 } ("zsh", ["-lc", devLaunchString])
    (Sink.file (cache_dir_of "/repo/src-tauri" ++ "/backend-sidecar.log"),
     Sink.file (cache_dir_of "/repo/src-tauri" ++ "/backend-sidecar.log"))
    rfl rfl rfl rfl rfl rfl rfl rfl
  exact ⟨h.1, h.2.1, h.2.2 "linux"⟩

/-- Claim C10: when the post-settle `try_wait` probe itself returns an OS
error (instead of reporting an exit), spawn treats the child as running:
it stores the handle and returns `Ok(true)`, and the probe error is never
surfaced to the caller. -/
theorem trywait_error_treated_running (env : Env) (st : SupervisorState)
    (e : String) (ch : Child) (pa : String × List String) (sinks : Sink × Sink)
    (hd : sidecar_disabled env.noSidecarVar = false)
    (ha : env.backendAlive = false)
    (hc : env.createDirResult = Except.ok ())
    (hcell : get_or_init_cell st = { poisoned := false, child := none })
    (hrp : resolve_program env = Except.ok pa)
    (hrs : resolve_sinks env (cache_dir_of env.manifestDir) = Except.ok sinks)
    (hsp : env.spawnResult = Except.ok ch)
    (htw : env.tryWaitResult = Except.error e) :
    (spawn_backend_sidecar env st).ret = Except.ok true ∧
    (spawn_backend_sidecar env st).launched = true ∧
    (spawn_backend_sidecar env st).state =
      { cell := some { poisoned := false, child := some ch } } := by
  have hsp' : spawn_backend_sidecar env st =
      { ret := Except.ok true,
        state := { cell := some { poisoned := false, child := some ch } },
        launched := true,
        spawnedCmd := some { program := pa.1, args := pa.2,
                             currentDir := project_root env.manifestDir,
                             stdoutSink := sinks.1, stderrSink := sinks.2 } } := by
    simp [spawn_backend_sidecar, hd, ha, hc, hcell, hrp, hrs, hsp, htw]
  exact ⟨by rw [hsp'], by rw [hsp'], by rw [hsp']⟩

/-- Witness for C10: a concrete run whose `try_wait` probe errors still
stores the handle and reports `Ok(true)`. -/
theorem trywait_error_treated_running_witness :
    (spawn_backend_sidecar { devEnv with tryWaitResult := Except.error "probe failed" }
        { cell := none }).ret = Except.ok true ∧
    (spawn_backend_sidecar { devEnv with tryWaitResult := Except.error "probe failed" }
        { cell := none }).launched = true ∧
    (spawn_backend_sidecar { devEnv with tryWaitResult := Except.error "probe failed" }
        { cell := none }).state =
      { cell := some { poisoned := false, child := some { pid := 1 } } } :=
  trywait_error_treated_running
    { devEnv with tryWaitResult := Except.error "probe failed" } { cell := none }
    "probe failed" { pid := 1 } ("zsh", ["-lc", devLaunchString])
    (Sink.file (cache_dir_of "/repo/src-tauri" ++ "/backend-sidecar.log"),
     Sink.file (cache_dir_of "/repo/src-tauri" ++ "/backend-sidecar.log"))
    rfl rfl rfl rfl rfl rfl rfl rfl

/-- Claim C5: in production mode the command builder tries the fixed ordered
candidate list next to the application executable and picks the first that
exists: with both present it picks `agenterm`; with only
`agenterm-server` present it picks that one; with neither present the
spawn fails with the `ExecutableNotFound`-class error
(`backendBinaryNotFound`); and any selected program is always one of the
two adjacent candidates — never a PATH lookup. -/
theorem production_candidate_resolution :
    (∀ env exe exeDir, env.debugAssertions = false →
       env.currentExe = Except.ok exe → env.exeParentDir = some exeDir →
       env.existsOnDisk (exeDir ++ "/agenterm") = true →
       resolve_program env = Except.ok (exeDir ++ "/agenterm", production_args)) ∧
    (∀ env exe exeDir, env.debugAssertions = false →
       env.currentExe = Except.ok exe → env.exeParentDir = some exeDir →
       env.existsOnDisk (exeDir ++ "/agenterm") = false →
       env.existsOnDisk (exeDir ++ "/agenterm-server") = true →
       resolve_program env = Except.ok (exeDir ++ "/agenterm-server", production_args)) ∧
    (∀ env st exe exeDir, env.debugAssertions = false →
       env.currentExe = Except.ok exe → env.exeParentDir = some exeDir →
       env.existsOnDisk (exeDir ++ "/agenterm") = false →
       env.existsOnDisk (exeDir ++ "/agenterm-server") = false →
       sidecar_disabled env.noSidecarVar = false → env.backendAlive = false →
       env.createDirResult = Except.ok () →
       get_or_init_cell st = { poisoned := false, child := none } →
       (spawn_backend_sidecar env st).ret =
         Except.error SpawnError.backendBinaryNotFound ∧
       (spawn_backend_sidecar env st).launched = false ∧
       (spawn_backend_sidecar env st).spawnedCmd = none) ∧
    (∀ env exe exeDir p args, env.debugAssertions = false →
       env.currentExe = Except.ok exe → env.exeParentDir = some exeDir →
       resolve_program env = Except.ok (p, args) →
       p = exeDir ++ "/agenterm" ∨ p = exeDir ++ "/agenterm-server") := by
  refine ⟨?_, ?_, ?_, ?_⟩
  · intro env exe exeDir hdbg hexe hpar h1
    simp [resolve_program, hdbg, hexe, hpar, production_candidates, List.find?, h1]
  · intro env exe exeDir hdbg hexe hpar h1 h2
    simp [resolve_program, hdbg, hexe, hpar, production_candidates, List.find?, h1, h2]
  · intro env st exe exeDir hdbg hexe hpar h1 h2 hd ha hc hcell
    have hrp : resolve_program env = Except.error SpawnError.backendBinaryNotFound := by
      simp [resolve_program, hdbg, hexe, hpar, production_candidates, List.find?, h1, h2]
    have hsp' : spawn_backend_sidecar env st =
        { ret := Except.error SpawnError.backendBinaryNotFound,
          state := { cell := some { poisoned := false, child := none } },
          launched := false, spawnedCmd := none } := by
      simp [spawn_backend_sidecar, hd, ha, hc, hcell, hrp]
    exact ⟨by rw [hsp'], by rw [hsp'], by rw [hsp']⟩
  · intro env exe exeDir p args hdbg hexe hpar h
    rw [resolve_program] at h
    simp only [hdbg, if_false, Bool.false_eq_true, hexe, hpar] at h
    cases hfind : (production_candidates exeDir).find? env.existsOnDisk with
    | none => rw [hfind] at h; simp at h
    | some b =>
      rw [hfind] at h
      simp only [Except.ok.injEq, Prod.mk.injEq] at h
      have hb := List.mem_of_find?_eq_some hfind
      simp only [production_candidates, List.mem_cons, List.not_mem_nil, or_false] at hb
      rcases hb with hb | hb
      · exact Or.inl (h.1 ▸ hb)
      · exact Or.inr (h.1 ▸ hb)

/-- Witness for C5 at concrete inputs: with only `agenterm-server` on disk
the production builder picks it, and with no candidate on disk a
production spawn fails with `backendBinaryNotFound`. -/
theorem production_candidate_resolution_witness :
    resolve_program prodEnv =
      Except.ok ("/usr/bin/agenterm-server", production_args) ∧
    (spawn_backend_sidecar { prodEnv with existsOnDisk := fun _ => false }
        { cell := none }).ret = Except.error SpawnError.backendBinaryNotFound :=
  ⟨production_candidate_resolution.2.1 prodEnv "/usr/bin/agenterm-desktop" "/usr/bin"
      rfl rfl rfl (by decide) (by decide),
   (production_candidate_resolution.2.2.1 { prodEnv with existsOnDisk := fun _ => false }
      { cell := none } "/usr/bin/agenterm-desktop" "/usr/bin"
      rfl rfl rfl rfl rfl rfl rfl rfl rfl).1⟩

/-- Claim C6: `stop_backend_sidecar` is total (it returns no error by type)
and idempotent: before any spawn or after a failed spawn it is a no-op;
with an unpoisoned handle present it takes the handle, kills and waits
the child, and leaves the handle empty; stop composed with stop equals a
single stop. -/
theorem stop_idempotent_total (st : SupervisorState) :
    (stop_backend_sidecar (stop_backend_sidecar st).state).state
        = (stop_backend_sidecar st).state ∧
    (stop_backend_sidecar (stop_backend_sidecar st).state).terminated = none ∧
    (st.cell = none → stop_backend_sidecar st = { state := st, terminated := none }) ∧
    (∀ c, st.cell = some c → c.poisoned = false → c.child = none →
       stop_backend_sidecar st = { state := st, terminated := none }) ∧
    (∀ c ch, st.cell = some c → c.poisoned = false → c.child = some ch →
       (stop_backend_sidecar st).terminated = some ch ∧
       (stop_backend_sidecar st).state =
         { cell := some { poisoned := false, child := none } }) := by
  refine ⟨?_, ?_, ?_, ?_, ?_⟩
  · rcases st with ⟨_ | ⟨p, child⟩⟩
    · rfl
    · cases p <;> cases child <;> rfl
  · rcases st with ⟨_ | ⟨p, child⟩⟩
    · rfl
    · cases p <;> cases child <;> rfl
  · intro h
    rcases st with ⟨stc⟩
    simp only at h
    subst h
    rfl
  · intro c h1 h2 h3
    rcases st with ⟨stc⟩
    simp only at h1
    subst h1
    rcases c with ⟨p, child⟩
    simp only at h2 h3
    subst h2
    subst h3
    rfl
  · intro c ch h1 h2 h3
    rcases st with ⟨stc⟩
    simp only at h1
    subst h1
    rcases c with ⟨p, child⟩
    simp only at h2 h3
    subst h2
    subst h3
    exact ⟨rfl, rfl⟩

/-- Witness for C6: stopping a concrete state holding child pid 7 kills and
reaps exactly that child and empties the handle. -/
theorem stop_idempotent_total_witness :
    (stop_backend_sidecar { cell := some { poisoned := false, child := some { pid := 7 } } }).terminated
        = some { pid := 7 } ∧
    (stop_backend_sidecar { cell := some { poisoned := false, child := some { pid := 7 } } }).state
        = { cell := some { poisoned := false, child := none } } :=
  (stop_idempotent_total { cell := some { poisoned := false, child := some { pid := 7 } } }).2.2.2.2
    { poisoned := false, child := some { pid := 7 } } { pid := 7 } rfl rfl rfl

theorem spawn_production_no_log_failure (env : Env) (st : SupervisorState)
    (hdbg : env.debugAssertions = false) (p m : String) :
    (spawn_backend_sidecar env st).ret ≠ Except.error (SpawnError.openLogFailed p m) ∧
    (spawn_backend_sidecar env st).ret ≠ Except.error (SpawnError.cloneLogFailed p m) := by
  have hrs := resolve_sinks_production env (cache_dir_of env.manifestDir) hdbg
  cases hb : (sidecar_disabled env.noSidecarVar || env.backendAlive) with
  | true => constructor <;> simp [spawn_backend_sidecar, hb]
  | false =>
    cases hc : env.createDirResult with
    | error e => constructor <;> simp [spawn_backend_sidecar, hb, hc]
    | ok u =>
      cases hp : (get_or_init_cell st).poisoned with
      | true => constructor <;> simp [spawn_backend_sidecar, hb, hc, hp]
      | false =>
        cases hch : (get_or_init_cell st).child with
        | some c0 => constructor <;> simp [spawn_backend_sidecar, hb, hc, hp, hch]
        | none =>
          rcases hexe : env.currentExe with e | exe
          · constructor <;>
              simp [spawn_backend_sidecar, hb, hc, hp, hch, resolve_program, hdbg, hexe]
          · rcases hpar : env.exeParentDir with _ | exeDir
            · constructor <;>
                simp [spawn_backend_sidecar, hb, hc, hp, hch, resolve_program, hdbg, hexe, hpar]
            · cases hfind : (production_candidates exeDir).find? env.existsOnDisk with
              | none =>
                constructor <;>
                  simp [spawn_backend_sidecar, hb, hc, hp, hch, resolve_program,
                        hdbg, hexe, hpar, hfind]
              | some b =>
                cases hsp : env.spawnResult with
                | error e =>
                  constructor <;>
                    simp [spawn_backend_sidecar, hb, hc, hp, hch, resolve_program,
                          hdbg, hexe, hpar, hfind, hrs, hsp]
                | ok ch =>
                  cases htw : env.tryWaitResult with
                  | error e =>
                    constructor <;>
                      simp [spawn_backend_sidecar, hb, hc, hp, hch, resolve_program,
                            hdbg, hexe, hpar, hfind, hrs, hsp, htw]
                  | ok o =>
                    cases o with
                    | some s =>
                      constructor <;>
                        simp [spawn_backend_sidecar, hb, hc, hp, hch, resolve_program,
                              hdbg, hexe, hpar, hfind, hrs, hsp, htw]
                    | none =>
                      constructor <;>
                        simp [spawn_backend_sidecar, hb, hc, hp, hch, resolve_program,
                              hdbg, hexe, hpar, hfind, hrs, hsp, htw]

theorem spawn_production_cmd_sinks (env : Env) (st : SupervisorState)
    (hdbg : env.debugAssertions = false) :
    (spawn_backend_sidecar env st).spawnedCmd = none ∨
    ∃ prog args dir, (spawn_backend_sidecar env st).spawnedCmd =
      some { program := prog, args := args, currentDir := dir,
             stdoutSink := Sink.nullSink, stderrSink := Sink.nullSink } := by
  have hrs := resolve_sinks_production env (cache_dir_of env.manifestDir) hdbg
  cases hb : (sidecar_disabled env.noSidecarVar || env.backendAlive) with
  | true => exact Or.inl (by simp [spawn_backend_sidecar, hb])
  | false =>
    cases hc : env.createDirResult with
    | error e => exact Or.inl (by simp [spawn_backend_sidecar, hb, hc])
    | ok u =>
      cases hp : (get_or_init_cell st).poisoned with
      | true => exact Or.inl (by simp [spawn_backend_sidecar, hb, hc, hp])
      | false =>
        cases hch : (get_or_init_cell st).child with
        | some c0 => exact Or.inl (by simp [spawn_backend_sidecar, hb, hc, hp, hch])
        | none =>
          rcases hexe : env.currentExe with e | exe
          · exact Or.inl (by
              simp [spawn_backend_sidecar, hb, hc, hp, hch, resolve_program, hdbg, hexe])
          · rcases hpar : env.exeParentDir with _ | exeDir
            · exact Or.inl (by
                simp [spawn_backend_sidecar, hb, hc, hp, hch, resolve_program, hdbg, hexe, hpar])
            · cases hfind : (production_candidates exeDir).find? env.existsOnDisk with
              | none =>
                exact Or.inl (by
                  simp [spawn_backend_sidecar, hb, hc, hp, hch, resolve_program,
                        hdbg, hexe, hpar, hfind])
              | some b =>
                refine Or.inr ⟨b, production_args, project_root env.manifestDir, ?_⟩
                cases hsp : env.spawnResult with
                | error e =>
                  simp [spawn_backend_sidecar, hb, hc, hp, hch, resolve_program,
                        hdbg, hexe, hpar, hfind, hrs, hsp]
                | ok ch =>
                  cases htw : env.tryWaitResult with
                  | error e =>
                    simp [spawn_backend_sidecar, hb, hc, hp, hch, resolve_program,
                          hdbg, hexe, hpar, hfind, hrs, hsp, htw]
                  | ok o =>
                    cases o with
                    | some s =>
                      simp [spawn_backend_sidecar, hb, hc, hp, hch, resolve_program,
                            hdbg, hexe, hpar, hfind, hrs, hsp, htw]
                    | none =>
                      simp [spawn_backend_sidecar, hb, hc, hp, hch, resolve_program,
                            hdbg, hexe, hpar, hfind, hrs, hsp, htw]

/-- Counterexample to claim C4 as stated: `fs::create_dir_all` runs before
the debug/production branch, so a production-mode (`debug_assertions`
off) spawn IS aborted by a directory-creation failure: with the cache
directory creation failing ("disk full"), spawn returns the
`createCacheDirFailed` error instead of proceeding to the null-sink
launch. -/
theorem production_dir_create_failure_aborts :
    ({ prodEnv with createDirResult := Except.error "disk full" } : Env).debugAssertions
        = false ∧
    spawn_backend_sidecar { prodEnv with createDirResult := Except.error "disk full" }
        { cell := none } =
      { ret := Except.error
          (SpawnError.createCacheDirFailed "/repo/src-tauri/../.cache/desktop" "disk full"),
        state := { cell := none }, launched := false, spawnedCmd := none } :=
  ⟨rfl, rfl⟩

/-- Claim C4 (amended): in production mode both child output streams are
directed to the null sink and the log-sink path cannot fail — a
production spawn never returns a log-open or log-clone error; in
development mode a log-open failure aborts the spawn as a hard error.
(The cache-directory creation of line 52, however, is unconditional, and
its failure aborts the spawn in either mode — see
`production_dir_create_failure_aborts`.) -/
theorem prod_null_sinks_dev_log_abort :
    (∀ env st p m, env.debugAssertions = false →
       (spawn_backend_sidecar env st).ret ≠ Except.error (SpawnError.openLogFailed p m) ∧
       (spawn_backend_sidecar env st).ret ≠ Except.error (SpawnError.cloneLogFailed p m)) ∧
    (∀ env st cmd, env.debugAssertions = false →
       (spawn_backend_sidecar env st).spawnedCmd = some cmd →
       cmd.stdoutSink = Sink.nullSink ∧ cmd.stderrSink = Sink.nullSink) ∧
    (∀ env st m, env.debugAssertions = true →
       sidecar_disabled env.noSidecarVar = false → env.backendAlive = false →
       env.createDirResult = Except.ok () →
       get_or_init_cell st = { poisoned := false, child := none } →
       env.openLogResult = Except.error m →
       (spawn_backend_sidecar env st).ret =
         Except.error (SpawnError.openLogFailed
           (cache_dir_of env.manifestDir ++ "/backend-sidecar.log") m) ∧
       (spawn_backend_sidecar env st).launched = false) := by
  refine ⟨?_, ?_, ?_⟩
  · intro env st p m hdbg
    exact spawn_production_no_log_failure env st hdbg p m
  · intro env st cmd hdbg hcmd
    rcases spawn_production_cmd_sinks env st hdbg with h | ⟨prog, args, dir, h⟩
    · rw [h] at hcmd; exact absurd hcmd (by simp)
    · rw [h] at hcmd
      have : cmd = { program := prog, args := args, currentDir := dir,
                     stdoutSink := Sink.nullSink, stderrSink := Sink.nullSink } :=
        (Option.some.inj hcmd).symm
      rw [this]
      exact ⟨rfl, rfl⟩
  · intro env st m hdbg hd ha hc hcell hlog
    have hrp : resolve_program env = Except.ok ("zsh", ["-lc", devLaunchString]) := by
      simp [resolve_program, hdbg]
    have hrs : resolve_sinks env (cache_dir_of env.manifestDir) =
        Except.error (SpawnError.openLogFailed
          (cache_dir_of env.manifestDir ++ "/backend-sidecar.log") m) := by
      simp [resolve_sinks, hdbg, hlog]
    have hsp' : spawn_backend_sidecar env st =
        { ret := Except.error (SpawnError.openLogFailed
            (cache_dir_of env.manifestDir ++ "/backend-sidecar.log") m),
          state := { cell := some { poisoned := false, child := none } },
          launched := false, spawnedCmd := none } := by
      simp [spawn_backend_sidecar, hd, ha, hc, hcell, hrp, hrs]
    exact ⟨by rw [hsp'], by rw [hsp']⟩

/-- Witness for the amended C4 at concrete inputs: a successful production
spawn never carries a log error and launches with both sinks null, and a
dev-mode spawn whose log open fails with "no space" aborts with exactly
that `openLogFailed` error. -/
theorem prod_null_sinks_dev_log_abort_witness :
    ((spawn_backend_sidecar { prodEnv with existsOnDisk := fun _ => true } { cell := none }).ret
        ≠ Except.error (SpawnError.openLogFailed "p" "m")) ∧
    ((spawn_backend_sidecar devEnvLogFail { cell := none }).ret =
      Except.error (SpawnError.openLogFailed
        "/repo/src-tauri/../.cache/desktop/backend-sidecar.log" "no space")) :=
  ⟨(prod_null_sinks_dev_log_abort.1 { prodEnv with existsOnDisk := fun _ => true }
      { cell := none } "p" "m" rfl).1,
   by
    have h := (prod_null_sinks_dev_log_abort.2.2 devEnvLogFail { cell := none }
      "no space" rfl rfl rfl rfl rfl rfl).1
    exact h⟩

/-- Claim C8: the status snapshot reflects handle ownership and is a pure
read (it takes the supervisor state and returns only the info record):
after a spawn that returned `Ok(true)` it reports
`sidecar_managed = true`, after a stop it reports
`sidecar_managed = false`, and its backend URL is the string-formatted
fixed host and port. -/
theorem status_reflects_ownership :
    (∀ env st osName, (spawn_backend_sidecar env st).ret = Except.ok true →
       (desktop_runtime_info osName (spawn_backend_sidecar env st).state).sidecar_managed
         = true) ∧
    (∀ st osName,
       (desktop_runtime_info osName (stop_backend_sidecar st).state).sidecar_managed
         = false) ∧
    (∀ st osName, (desktop_runtime_info osName st).backend_url =
       "http://" ++ BACKEND_HOST ++ ":" ++ toString BACKEND_PORT) ∧
    (∀ st osName, (desktop_runtime_info osName st).backend_url = "http://127.0.0.1:8765") := by
  refine ⟨?_, ?_, ?_, ?_⟩
  · intro env st osName h
    obtain ⟨-, -, ch, hstate⟩ := spawn_ok_true_shape env st h
    rw [hstate]
    simp [desktop_runtime_info]
  · intro st osName
    rcases st with ⟨_ | ⟨p, child⟩⟩
    · rfl
    · cases p <;> cases child <;> rfl
  · intro st osName
    rfl
  · intro st osName
    rfl

/-- Witness for C8: a concrete successful spawn flips the snapshot to
managed, and a stop from that state flips it back. -/
theorem status_reflects_ownership_witness :
    (desktop_runtime_info "linux"
        (spawn_backend_sidecar devEnv { cell := none }).state).sidecar_managed = true ∧
    (desktop_runtime_info "linux"
        (stop_backend_sidecar
          { cell := some { poisoned := false, child := some { pid := 1 } } }).state).sidecar_managed
      = false :=
  ⟨status_reflects_ownership.1 devEnv { cell := none } "linux" rfl,
   status_reflects_ownership.2.1
     { cell := some { poisoned := false, child := some { pid := 1 } } } "linux"⟩

/-- Claim C9: the status snapshot is total (by type it always returns a
record, propagating no error and blocking on nothing): an uninitialized
`OnceLock` or a poisoned lock both yield `sidecar_managed = false`, and
the remaining fields are always populated from the constants. -/
theorem runtime_info_total (osName : String) (st : SupervisorState) :
    (st.cell = none → (desktop_runtime_info osName st).sidecar_managed = false) ∧
    (∀ c, st.cell = some c → c.poisoned = true →
       (desktop_runtime_info osName st).sidecar_managed = false) ∧
    (desktop_runtime_info osName st).platform = osName ∧
    (desktop_runtime_info osName st).app = "agenTerm" ∧
    (desktop_runtime_info osName st).backend_token = BACKEND_TOKEN ∧
    (desktop_runtime_info osName st).backend_url = "http://127.0.0.1:8765" := by
  refine ⟨?_, ?_, rfl, rfl, rfl, rfl⟩
  · intro h
    rcases st with ⟨stc⟩
    simp only at h
    subst h
    rfl
  · intro c h1 h2
    rcases st with ⟨stc⟩
    simp only at h1
    subst h1
    simp [desktop_runtime_info, h2]

/-- Witness for C9: the snapshot of an uninitialized state and of a
poisoned state both report no managed sidecar. -/
theorem runtime_info_total_witness :
    (desktop_runtime_info "macos" { cell := none }).sidecar_managed = false ∧
    (desktop_runtime_info "macos"
        { cell := some { poisoned := true, child := some { pid := 9 } } }).sidecar_managed
      = false :=
  ⟨(runtime_info_total "macos" { cell := none }).1 rfl,
   (runtime_info_total "macos"
      { cell := some { poisoned := true, child := some { pid := 9 } } }).2.1
      { poisoned := true, child := some { pid := 9 } } rfl rfl⟩

theorem spawn_populated (env : Env) (st : SupervisorState) (ch : Child)
    (hd : sidecar_disabled env.noSidecarVar = false)
    (ha : env.backendAlive = false)
    (hc : env.createDirResult = Except.ok ())
    (hcell : st.cell = some { poisoned := false, child := some ch }) :
    spawn_backend_sidecar env st =
      { ret := .ok false, state := st, launched := false, spawnedCmd := none } := by
  rcases st with ⟨stc⟩
  simp only at hcell
  subst hcell
  simp [spawn_backend_sidecar, hd, ha, hc, get_or_init_cell]

theorem run_spawns_populated (env : Env) (n : Nat) (st : SupervisorState) (ch : Child)
    (hd : sidecar_disabled env.noSidecarVar = false)
    (ha : env.backendAlive = false)
    (hc : env.createDirResult = Except.ok ())
    (hcell : st.cell = some { poisoned := false, child := some ch }) :
    run_spawns env n st = (st, 0, List.replicate n (Except.ok false)) := by
  induction n with
  | zero => simp [run_spawns]
  | succ k ih =>
    have hsp := spawn_populated env st ch hd ha hc hcell
    simp [run_spawns, hsp, ih, List.replicate_succ]

/-- Claim C1: in one process run with the backend unreachable and the
opt-out unset (a fixed environment oracle), once the first spawn call
returns `Ok(true)` and populates the guarded handle, every one of the
following `n` calls finds the handle present and returns `Ok(false)`
without launching anything: over the whole sequence exactly one child
process is launched. -/
theorem spawn_idempotent_sequence (env : Env) (st : SupervisorState) (n : Nat)
    (hd : sidecar_disabled env.noSidecarVar = false)
    (ha : env.backendAlive = false)
    (h1 : (spawn_backend_sidecar env st).ret = Except.ok true) :
    run_spawns env (n + 1) st =
      ((spawn_backend_sidecar env st).state, 1,
       Except.ok true :: List.replicate n (Except.ok false)) := by
  obtain ⟨hc, hl, ch, hstate⟩ := spawn_ok_true_shape env st h1
  have hrest := run_spawns_populated env n (spawn_backend_sidecar env st).state ch
    hd ha hc (by rw [hstate])
  simp [run_spawns, hl, h1, hrest]

/-- Witness for C1: three sequential spawn calls in a concrete dev-mode run
launch exactly one process; the second and third report `Ok(false)`. -/
theorem spawn_idempotent_sequence_witness :
    run_spawns devEnv 3 { cell := none } =
      ({ cell := some { poisoned := false, child := some { pid := 1 } } }, 1,
       [Except.ok true, Except.ok false, Except.ok false]) := by
  have h := spawn_idempotent_sequence devEnv { cell := none } 2 rfl rfl rfl
  exact h
